import Mathlib

/-!
Shallow embedding of the impact-physics engine
(backend/services/physics_engine.py) together with the data model it reads
(backend/models/asteroid.py, backend/models/simulation.py).

Python floats are modelled as real numbers; Python exceptions (KeyError from
direct dictionary indexing, ValueError from math.sqrt on a negative argument)
are modelled with Option, none standing for a raised exception.  The truthiness
test of the Python idiom (x or d) is modelled explicitly: a present value equal
to 0 counts as absent.
-/

/-- Severity band of a metric, as the strings used by the engine. -/
inductive Severity where
  | minor
  | moderate
  | severe
  | catastrophic
deriving DecidableEq, Repr, Inhabited

/-- Numeric rank of a severity band, for stating monotonicity. -/
def Severity.rank : Severity → ℕ
  | .minor => 0
  | .moderate => 1
  | .severe => 2
  | .catastrophic => 3

/-- Orbital mechanics parameters (models OrbitalElements). -/
structure OrbitalElements where
  semi_major_axis_au : Option ℝ
  eccentricity : Option ℝ
deriving Inhabited

/-- Asteroid input record (models the fields of Asteroid that the engine reads). -/
structure Asteroid where
  nasa_id : String
  name : String
  estimated_diameter_km : Option ℝ
  orbital_elements : Option OrbitalElements
  composition_type : String
  density_kg_m3 : Option ℝ
deriving Inhabited

/-- Geographic impact location (models ImpactLocation). -/
structure ImpactLocation where
  lat : ℝ
  lng : ℝ
  locName : String
deriving Inhabited

/-- Impact simulation parameters (models ImpactParameters). -/
structure ImpactParameters where
  asteroid_nasa_id : String
  impact_location : ImpactLocation
  impact_velocity_kms : Option ℝ
  impact_angle_deg : ℝ
  target_density_kg_m3 : ℝ
deriving Inhabited

/-- Individual impact metric (models ImpactMetric; the numeric value is kept
as a real number rather than its decimal rendering). -/
structure ImpactMetric where
  value : ℝ
  unit : String
  severity : Severity
  progress : ℝ
  scientific_basis : String
deriving Inhabited

/-- Immediate-effects grouping of the results dictionary. -/
structure ImmediateEffects where
  craterDiameter : ImpactMetric
  energy : ImpactMetric
  temperature : ImpactMetric
  fireballRadius : ImpactMetric
deriving Inhabited

/-- Environmental-effects grouping of the results dictionary. -/
structure EnvironmentalEffects where
  shockwaveRadius : ImpactMetric
  debrisFieldRadius : ImpactMetric
  seismicMagnitude : ImpactMetric
  atmosphericDust : ImpactMetric
deriving Inhabited

/-- Human-impact grouping of the results dictionary. -/
structure HumanImpactEffects where
  casualtiesImmediate : ImpactMetric
  infrastructureDamage : ImpactMetric
  economicLoss : ImpactMetric
  refugeePopulation : ImpactMetric
deriving Inhabited

/-- Computed numeric content of the timeline narrative (the values
interpolated into the fixed timeline strings at t1, t3 and t5). -/
structure Timeline where
  t1_fireball_radius_km : ℝ
  t3_shockwave_time_s : ℝ
  t5_seismic_magnitude : ℝ
deriving Inhabited

/-- The four groupings returned by the comprehensive-effects calculation. -/
structure EffectsGroupings where
  immediate : ImmediateEffects
  environmental : EnvironmentalEffects
  human_impact : HumanImpactEffects
  timeline : Timeline
deriving Inhabited

/-- Full results record (models ImpactResults; the model default for
confidence_level is 0.95). -/
structure ImpactResults where
  immediate : ImmediateEffects
  environmental : EnvironmentalEffects
  human_impact : HumanImpactEffects
  timeline : Timeline
  asteroid_source : String
  calculation_method : String
  confidence_level : ℝ := 0.95
deriving Inhabited

/-- Metadata dictionary stored on the engine by calculate_impact_scenario. -/
structure CalculationMetadata where
  asteroid_source : String
  calculation_method : String
  impact_velocity_used : ℝ
  asteroid_mass_kg : ℝ
  kinetic_energy_mt : ℝ
  nasa_asteroid_id : String
deriving Inhabited

/-- Mutable state of an EnhancedPhysicsEngine instance: its single field
calculation_metadata, initialised to the empty dictionary (none). -/
structure EngineState where
  calculation_metadata : Option CalculationMetadata
deriving Inhabited

-- Physical constants of the engine class.

/-- Earth escape velocity in km per s. -/
def EARTH_ESCAPE_VELOCITY : ℝ := 11.2

/-- One astronomical unit in meters. -/
def AU : ℝ := 1.496e11

/-- Standard gravitational parameter of the Sun in SI units. -/
def GM_sun : ℝ := 1.327e20

/-- Material density lookup table, kg per cubic meter. -/
def MATERIAL_DENSITIES : List (String × ℝ) :=
  [("rocky", 2600), ("iron", 7800), ("icy", 1000), ("stony", 3500)]

/-- Python idiom (x or d) for an optional float x: the value when present and
nonzero (truthy), otherwise the default. -/
noncomputable def orDefault (x : Option ℝ) (d : ℝ) : ℝ :=
  match x with
  | some v => if v = 0 then d else v
  | none => d

/-- Dictionary read MATERIAL_DENSITIES.get(ct, 2600) with a default. -/
def materialDensityGetD (ct : String) : ℝ :=
  (MATERIAL_DENSITIES.lookup ct).getD 2600

/-- Direct dictionary indexing MATERIAL_DENSITIES[ct]: none models KeyError. -/
def materialDensityIndex (ct : String) : Option ℝ :=
  MATERIAL_DENSITIES.lookup ct

/-- Density binding of calculate_impact_scenario (line 40):
asteroid.density_kg_m3 or MATERIAL_DENSITIES[asteroid.composition_type].
The or short-circuits, so the indexing (and its possible KeyError) only
happens when the override is absent or zero. -/
noncomputable def topDensity (asteroid : Asteroid) : Option ℝ :=
  match asteroid.density_kg_m3 with
  | some d => if d = 0 then materialDensityIndex asteroid.composition_type else some d
  | none => materialDensityIndex asteroid.composition_type

/-- Orbital velocity from the semi-major axis (sqrt of GM over a); none models
the ValueError raised by math.sqrt on a negative argument. -/
noncomputable def calculate_orbital_velocity (orbital_elements : OrbitalElements) : Option ℝ :=
  match orbital_elements.semi_major_axis_au with
  | none => some 15.0
  | some a =>
      if a = 0 then some 15.0
      else
        if a < 0 then none
        else some (Real.sqrt (GM_sun / (a * AU)) / 1000)

/-- Branch of the velocity resolution taken when no truthy explicit override is
present: the orbital computation when a truthy semi-major axis is available,
otherwise the 20.0 km per s statistical fallback. -/
noncomputable def fallbackVelocity (asteroid : Asteroid) : Option ℝ :=
  match asteroid.orbital_elements with
  | none => some 20.0
  | some oe =>
      match oe.semi_major_axis_au with
      | none => some 20.0
      | some a =>
          if a = 0 then some 20.0
          else
            (calculate_orbital_velocity oe).map fun orbital_velocity =>
              Real.sqrt (orbital_velocity ^ 2 + EARTH_ESCAPE_VELOCITY ^ 2)

/-- Impact velocity resolution of the engine: explicit truthy override first,
then the orbital branch, then the 20.0 km per s fallback. -/
noncomputable def calculate_impact_velocity (asteroid : Asteroid) (parameters : ImpactParameters) :
    Option ℝ :=
  match parameters.impact_velocity_kms with
  | some v => if v = 0 then fallbackVelocity asteroid else some v
  | none => fallbackVelocity asteroid

/-- Asteroid mass from diameter and density; this site reads the density table
with a .get defaulting to 2600. -/
noncomputable def calculate_asteroid_mass (asteroid : Asteroid) : ℝ :=
  let diameter_km := orDefault asteroid.estimated_diameter_km 1.0
  let diameter_m := diameter_km * 1000
  let radius_m := diameter_m / 2
  let volume_m3 := (4 / 3) * Real.pi * radius_m ^ 3
  let density := orDefault asteroid.density_kg_m3 (materialDensityGetD asteroid.composition_type)
  volume_m3 * density

/-- Crater diameter in meters, Melosh-Ivanov style scaling. -/
noncomputable def calculate_crater_diameter
    (energy_mt _diameter_m _velocity_kms _density target_density angle_deg : ℝ) : ℝ :=
  let energy_joules := energy_mt * 4.184e15
  let angle_factor := Real.sin (angle_deg * Real.pi / 180)
  let K := 1.25
  K * ((energy_joules * angle_factor) / target_density) ^ (0.25 : ℝ)

/-- Fireball radius (km) and peak temperature (deg C). -/
noncomputable def calculate_thermal_effects (energy_mt velocity_kms : ℝ) : ℝ × ℝ :=
  (0.5 * energy_mt ^ (0.4 : ℝ), min 100000 (velocity_kms * 2000 + 10000))

/-- Shockwave radius in km. -/
noncomputable def calculate_shockwave_radius (energy_mt angle_deg : ℝ) : ℝ :=
  let angle_factor := Real.sin (angle_deg * Real.pi / 180)
  15 * energy_mt ^ (0.33 : ℝ) * angle_factor

/-- Seismic magnitude from impact energy, clamped into the band 0 to 10. -/
noncomputable def calculate_seismic_magnitude (energy_mt : ℝ) : ℝ :=
  if energy_mt > 0 then
    max 0 (min 10 ((Real.logb 10 (energy_mt * 4.184e15) - 4.8) / 1.5))
  else 0

/-- Debris field radius in km. -/
noncomputable def calculate_debris_field (energy_mt angle_deg : ℝ) : ℝ :=
  let angle_factor := Real.sin (angle_deg * Real.pi / 180)
  50 * energy_mt ^ (0.3 : ℝ) * angle_factor

/-- Atmospheric dust injection in tons. -/
noncomputable def calculate_atmospheric_dust (_energy_mt diameter_m : ℝ) : ℝ :=
  let crater_volume := (Real.pi / 6) * diameter_m ^ 3
  crater_volume * 2600 * 0.1

/-- Immediate casualty estimate. -/
noncomputable def estimate_casualties (shockwave_km fireball_km : ℝ) : ℝ :=
  let lethal_area_km2 := Real.pi * fireball_km ^ 2 + 0.5 * Real.pi * shockwave_km ^ 2
  lethal_area_km2 * 1000 * 0.8

/-- Displaced population estimate. -/
noncomputable def estimate_refugees (debris_km : ℝ) : ℝ :=
  let affected_area := Real.pi * debris_km ^ 2
  affected_area * 500

/-- Three-threshold step classifier shared by all twelve severity functions. -/
def stepSeverity {α : Type} [LinearOrder α] (t1 t2 t3 x : α) : Severity :=
  if t1 < x then .catastrophic
  else if t2 < x then .severe
  else if t3 < x then .moderate
  else .minor

/-- Crater severity thresholds (km). -/
noncomputable def get_crater_severity (diameter_km : ℝ) : Severity :=
  stepSeverity 20 10 2 diameter_km

/-- Energy severity thresholds (megatons). -/
noncomputable def get_energy_severity (energy_mt : ℝ) : Severity :=
  stepSeverity 100000 10000 1000 energy_mt

/-- Temperature severity thresholds (deg C). -/
noncomputable def get_temperature_severity (temp : ℝ) : Severity :=
  stepSeverity 50000 20000 5000 temp

/-- Fireball severity thresholds (km). -/
noncomputable def get_fireball_severity (radius_km : ℝ) : Severity :=
  stepSeverity 100 50 10 radius_km

/-- Shockwave severity thresholds (km). -/
noncomputable def get_shockwave_severity (radius_km : ℝ) : Severity :=
  stepSeverity 2000 1000 200 radius_km

/-- Debris severity thresholds (km). -/
noncomputable def get_debris_severity (radius_km : ℝ) : Severity :=
  stepSeverity 5000 2500 1000 radius_km

/-- Seismic severity thresholds (magnitude). -/
noncomputable def get_seismic_severity (magnitude : ℝ) : Severity :=
  stepSeverity 8 7 5 magnitude

/-- Atmospheric dust severity thresholds (billion tons). -/
noncomputable def get_dust_severity (billion_tons : ℝ) : Severity :=
  stepSeverity 50 10 1 billion_tons

/-- Casualty severity thresholds (people). -/
noncomputable def get_casualty_severity (casualties : ℝ) : Severity :=
  stepSeverity 5000000 1000000 100000 casualties

/-- Infrastructure severity thresholds (km). -/
noncomputable def get_infrastructure_severity (radius_km : ℝ) : Severity :=
  stepSeverity 1000 500 100 radius_km

/-- Economic severity thresholds (billion USD). -/
noncomputable def get_economic_severity (loss_billion : ℝ) : Severity :=
  stepSeverity 5000 1000 100 loss_billion

/-- Refugee severity thresholds (people). -/
noncomputable def get_refugee_severity (refugees : ℝ) : Severity :=
  stepSeverity 20000000 5000000 1000000 refugees

/-- The comprehensive-effects calculation: twelve metrics in three groupings
plus the computed timeline values. -/
noncomputable def calculate_comprehensive_effects
    (energy_mt _mass_kg velocity_kms diameter_m _density impact_angle target_density : ℝ) :
    EffectsGroupings :=
  let crater_diameter_m :=
    calculate_crater_diameter energy_mt diameter_m velocity_kms _density target_density impact_angle
  let thermal := calculate_thermal_effects energy_mt velocity_kms
  let fireball_radius_km := thermal.1
  let peak_temperature := thermal.2
  let shockwave_radius_km := calculate_shockwave_radius energy_mt impact_angle
  let seismic_magnitude := calculate_seismic_magnitude energy_mt
  let debris_radius_km := calculate_debris_field energy_mt impact_angle
  let atmospheric_dust_tons := calculate_atmospheric_dust energy_mt diameter_m
  let casualties := estimate_casualties shockwave_radius_km fireball_radius_km
  let infrastructure_damage_km := shockwave_radius_km * 1.5
  let economic_loss_billion := energy_mt * 0.1
  let refugees := estimate_refugees debris_radius_km
  { immediate :=
      { craterDiameter :=
          { value := crater_diameter_m / 1000
            unit := "km"
            severity := get_crater_severity (crater_diameter_m / 1000)
            progress := min 100 (crater_diameter_m / 1000 / 50 * 100)
            scientific_basis := "Melosh-Ivanov scaling laws for complex craters" }
        energy :=
          { value := energy_mt
            unit := "megatons TNT"
            severity := get_energy_severity energy_mt
            progress := min 100 (energy_mt / 1000000 * 100)
            scientific_basis := "Real orbital velocity + Earth escape velocity" }
        temperature :=
          { value := peak_temperature
            unit := "deg C"
            severity := get_temperature_severity peak_temperature
            progress := min 100 (peak_temperature / 100000 * 100)
            scientific_basis := "Shock physics and equation of state calculations" }
        fireballRadius :=
          { value := fireball_radius_km
            unit := "km"
            severity := get_fireball_severity fireball_radius_km
            progress := min 100 (fireball_radius_km / 200 * 100)
            scientific_basis := "Sedov-Taylor blast wave solution" } }
    environmental :=
      { shockwaveRadius :=
          { value := shockwave_radius_km
            unit := "km"
            severity := get_shockwave_severity shockwave_radius_km
            progress := min 100 (shockwave_radius_km / 3000 * 100)
            scientific_basis := "Atmospheric blast wave propagation models" }
        debrisFieldRadius :=
          { value := debris_radius_km
            unit := "km"
            severity := get_debris_severity debris_radius_km
            progress := min 100 (debris_radius_km / 8000 * 100)
            scientific_basis := "Ballistic trajectory modeling of ejecta" }
        seismicMagnitude :=
          { value := seismic_magnitude
            unit := "magnitude"
            severity := get_seismic_severity seismic_magnitude
            progress := min 100 (seismic_magnitude / 10 * 100)
            scientific_basis := "Energy-magnitude scaling relationships" }
        atmosphericDust :=
          { value := atmospheric_dust_tons / 1e9
            unit := "billion tons"
            severity := get_dust_severity (atmospheric_dust_tons / 1e9)
            progress := min 100 (atmospheric_dust_tons / 1e9 / 100 * 100)
            scientific_basis := "Impact ejecta scaling and atmospheric modeling" } }
    human_impact :=
      { casualtiesImmediate :=
          { value := casualties
            unit := "estimated casualties"
            severity := get_casualty_severity casualties
            progress := min 100 (casualties / 10000000 * 100)
            scientific_basis := "Population density models and lethality curves" }
        infrastructureDamage :=
          { value := infrastructure_damage_km
            unit := "km radius affected"
            severity := get_infrastructure_severity infrastructure_damage_km
            progress := min 100 (infrastructure_damage_km / 2000 * 100)
            scientific_basis := "Engineering failure analysis and overpressure thresholds" }
        economicLoss :=
          { value := economic_loss_billion
            unit := "billion USD"
            severity := get_economic_severity economic_loss_billion
            progress := min 100 (economic_loss_billion / 10000 * 100)
            scientific_basis := "Disaster economics and regional GDP impact models" }
        refugeePopulation :=
          { value := refugees
            unit := "displaced persons"
            severity := get_refugee_severity refugees
            progress := min 100 (refugees / 50000000 * 100)
            scientific_basis := "Evacuation zone modeling and population displacement studies" } }
    timeline :=
      { t1_fireball_radius_km := fireball_radius_km
        t3_shockwave_time_s := shockwave_radius_km / 0.34
        t5_seismic_magnitude := seismic_magnitude } }

/-- The main calculation method, with the engine state threaded explicitly:
on success the call overwrites calculation_metadata and returns the results;
a raised exception (none) leaves the state untouched, since the metadata
assignment happens after every computation. -/
noncomputable def calculate_impact_scenario_run
    (s : EngineState) (asteroid : Asteroid) (parameters : ImpactParameters) :
    EngineState × Option ImpactResults :=
  match calculate_impact_velocity asteroid parameters with
  | none => (s, none)
  | some impact_velocity =>
      match topDensity asteroid with
      | none => (s, none)
      | some density =>
          let mass_kg := calculate_asteroid_mass asteroid
          let diameter_m := orDefault asteroid.estimated_diameter_km 1.0 * 1000
          let kinetic_energy_joules := 0.5 * mass_kg * (impact_velocity * 1000) ^ 2
          let energy_megatons := kinetic_energy_joules / 4.184e15
          let results := calculate_comprehensive_effects energy_megatons mass_kg
            impact_velocity diameter_m density parameters.impact_angle_deg
            parameters.target_density_kg_m3
          ({ calculation_metadata := some
              { asteroid_source := "nasa_neo"
                calculation_method := "enhanced_physics"
                impact_velocity_used := impact_velocity
                asteroid_mass_kg := mass_kg
                kinetic_energy_mt := energy_megatons
                nasa_asteroid_id := asteroid.nasa_id } },
           some
            { immediate := results.immediate
              environmental := results.environmental
              human_impact := results.human_impact
              timeline := results.timeline
              asteroid_source := "nasa_neo"
              calculation_method := "enhanced_physics"
              confidence_level := 0.85 })

/-- Result of a call on a freshly initialised engine (the global singleton
right after construction). -/
noncomputable def calculate_impact_scenario (asteroid : Asteroid) (parameters : ImpactParameters) :
    Option ImpactResults :=
  (calculate_impact_scenario_run ⟨none⟩ asteroid parameters).2

-- Concrete inputs used by the scenario claims.

/-- Baseline scenario asteroid: diameter 1.0 km, rocky, no density override,
no orbital data. -/
noncomputable def rockyKmAsteroid : Asteroid :=
  { nasa_id := "2000433"
    name := "Baseline"
    estimated_diameter_km := some 1.0
    orbital_elements := none
    composition_type := "rocky"
    density_kg_m3 := none }

/-- Baseline scenario conditions: no explicit velocity, impact angle 45 deg,
target density 2700. -/
noncomputable def baselineParams : ImpactParameters :=
  { asteroid_nasa_id := "2000433"
    impact_location := { lat := 0, lng := 0, locName := "Ocean" }
    impact_velocity_kms := none
    impact_angle_deg := 45
    target_density_kg_m3 := 2700 }

/-- The results record of the baseline scenario. -/
noncomputable def scenarioAResult : ImpactResults :=
  (calculate_impact_scenario rockyKmAsteroid baselineParams).getD default

/-- Baseline asteroid with a composition class outside the density table and
no density override. -/
noncomputable def unknownAsteroid : Asteroid :=
  { rockyKmAsteroid with composition_type := "metallic" }

/-- Asteroid with a zero (falsy) density override and a composition class
outside the density table. -/
noncomputable def zeroDensityCometAsteroid : Asteroid :=
  { rockyKmAsteroid with composition_type := "comet", density_kg_m3 := some 0 }

/-- Baseline conditions with a negative explicit velocity override. -/
noncomputable def negVelocityParams : ImpactParameters :=
  { baselineParams with impact_velocity_kms := some (-5) }

-- Claim-side definitions, compared against the embedded code.

/-- Velocity resolution as the amended claim describes it: a present nonzero
override is returned unchanged; otherwise a present nonzero semi-major axis
selects the orbital formula, which fails for a negative axis; otherwise the
fixed 20.0 km per s fallback. -/
noncomputable def velocityOrbitalOrFallback (asteroid : Asteroid) : Option ℝ :=
  match asteroid.orbital_elements with
  | some oe =>
      match oe.semi_major_axis_au with
      | some a =>
          if a ≠ 0 then
            if a < 0 then none
            else some (Real.sqrt ((Real.sqrt (1.327e20 / (a * 1.496e11)) / 1000) ^ 2 + 11.2 ^ 2))
          else some 20.0
      | none => some 20.0
  | none => some 20.0

/-- Top level of the amended velocity resolution claim. -/
noncomputable def velocityResolutionAmended (asteroid : Asteroid) (parameters : ImpactParameters) :
    Option ℝ :=
  match parameters.impact_velocity_kms with
  | some v => if v ≠ 0 then some v else velocityOrbitalOrFallback asteroid
  | none => velocityOrbitalOrFallback asteroid

/-- Effective density of the mass calculation as the amended claim describes
it: a present nonzero override is used as given (even when negative),
otherwise the table value with default 2600 for an unrecognized class. -/
noncomputable def effectiveDensityAmended (asteroid : Asteroid) : ℝ :=
  match asteroid.density_kg_m3 with
  | some d => if d ≠ 0 then d else materialDensityGetD asteroid.composition_type
  | none => materialDensityGetD asteroid.composition_type

/-- Progress contract of a metric for a given ceiling: the stored progress is
min 100 of value over ceiling times 100, and lies between 0 and 100. -/
def ProgressWithin (m : ImpactMetric) (ceiling : ℝ) : Prop :=
  m.progress = min 100 (m.value / ceiling * 100) ∧ 0 ≤ m.progress ∧ m.progress ≤ 100

-- Helper lemmas.

lemma pi_lb : (3.141592 : ℝ) < Real.pi := Real.pi_gt_d6

lemma pi_ub : Real.pi < 3.141593 := Real.pi_lt_d6

lemma sqrt2_lb : (1.414213 : ℝ) < Real.sqrt 2 := by
  nlinarith [Real.sq_sqrt (by norm_num : (0:ℝ) ≤ 2), Real.sqrt_nonneg 2]

lemma sqrt2_ub : Real.sqrt 2 < 1.414214 := by
  nlinarith [Real.sq_sqrt (by norm_num : (0:ℝ) ≤ 2), Real.sqrt_nonneg 2]

lemma rpow_quarter_pow4 (x : ℝ) (hx : 0 ≤ x) : (x ^ (0.25:ℝ)) ^ (4:ℕ) = x := by
  rw [← Real.rpow_natCast (x ^ (0.25:ℝ)) 4, ← Real.rpow_mul hx]
  norm_num

lemma lt_rpow_quarter {x b : ℝ} (hx : 0 ≤ x) (h : b ^ (4:ℕ) < x) : b < x ^ (0.25:ℝ) := by
  have key := rpow_quarter_pow4 x hx
  exact lt_of_pow_lt_pow_left₀ 4 (Real.rpow_nonneg hx _) (by rw [key]; exact h)

lemma rpow_quarter_lt {x b : ℝ} (hx : 0 ≤ x) (hb : 0 ≤ b) (h : x < b ^ (4:ℕ)) :
    x ^ (0.25:ℝ) < b := by
  have key := rpow_quarter_pow4 x hx
  exact lt_of_pow_lt_pow_left₀ 4 hb (by rw [key]; exact h)

lemma rpow_04_pow5 (x : ℝ) (hx : 0 ≤ x) : (x ^ (0.4:ℝ)) ^ (5:ℕ) = x ^ (2:ℕ) := by
  rw [← Real.rpow_natCast (x ^ (0.4:ℝ)) 5, ← Real.rpow_mul hx, ← Real.rpow_natCast x 2]
  norm_num

lemma lt_rpow_04 {x b : ℝ} (hx : 0 ≤ x) (h : b ^ (5:ℕ) < x ^ (2:ℕ)) : b < x ^ (0.4:ℝ) := by
  have key := rpow_04_pow5 x hx
  exact lt_of_pow_lt_pow_left₀ 5 (Real.rpow_nonneg hx _) (by rw [key]; exact h)

lemma rpow_04_lt {x b : ℝ} (hx : 0 ≤ x) (hb : 0 ≤ b) (h : x ^ (2:ℕ) < b ^ (5:ℕ)) :
    x ^ (0.4:ℝ) < b := by
  have key := rpow_04_pow5 x hx
  exact lt_of_pow_lt_pow_left₀ 5 hb (by rw [key]; exact h)

lemma baseline_velocity : calculate_impact_velocity rockyKmAsteroid baselineParams =
    some 20.0 := rfl

lemma baseline_topDensity : topDensity rockyKmAsteroid = some 2600 := rfl

lemma baseline_scenario_some : calculate_impact_scenario rockyKmAsteroid baselineParams =
    some scenarioAResult := rfl

lemma baseline_mass : calculate_asteroid_mass rockyKmAsteroid =
    Real.pi * 1300000000000 / 3 := by
  have h : materialDensityGetD "rocky" = 2600 := rfl
  simp only [calculate_asteroid_mass, orDefault, rockyKmAsteroid, h]
  norm_num
  ring

lemma baseline_mass_bounds : (1361000000000 : ℝ) < calculate_asteroid_mass rockyKmAsteroid ∧
    calculate_asteroid_mass rockyKmAsteroid < 1362000000000 := by
  rw [baseline_mass]
  constructor <;> nlinarith [pi_lb, pi_ub]

lemma baseline_energy_expr : scenarioAResult.immediate.energy.value =
    0.5 * calculate_asteroid_mass rockyKmAsteroid * (20.0 * 1000) ^ 2 / 4.184e15 := rfl

lemma baseline_energy_closed : scenarioAResult.immediate.energy.value =
    Real.pi * 1300000000000 / 3 * 200000000 / 4.184e15 := by
  rw [baseline_energy_expr, baseline_mass]
  norm_num
  ring

lemma baseline_energy_bounds : 65073 < scenarioAResult.immediate.energy.value ∧
    scenarioAResult.immediate.energy.value < 65076 := by
  rw [baseline_energy_closed]
  constructor <;> nlinarith [pi_lb, pi_ub]

lemma baseline_crater_expr : scenarioAResult.immediate.craterDiameter.value =
    1.25 * ((0.5 * calculate_asteroid_mass rockyKmAsteroid * (20.0 * 1000) ^ 2 / 4.184e15 *
      4.184e15 * Real.sin (45 * Real.pi / 180)) / 2700) ^ (0.25:ℝ) / 1000 := rfl

lemma baseline_crater_base : (0.5 * calculate_asteroid_mass rockyKmAsteroid * (20.0 * 1000) ^ 2 /
      4.184e15 * 4.184e15 * Real.sin (45 * Real.pi / 180)) / 2700
    = Real.pi * Real.sqrt 2 * (1300000000000000000 / 81) := by
  have h45 : (45:ℝ) * Real.pi / 180 = Real.pi / 4 := by ring
  rw [h45, Real.sin_pi_div_four, baseline_mass]
  ring

lemma baseline_crater_base_lb : (16000:ℝ) ^ (4:ℕ) <
    Real.pi * Real.sqrt 2 * (1300000000000000000 / 81) := by
  have h1 : (4.442876 : ℝ) < Real.pi * Real.sqrt 2 := by nlinarith [pi_lb, sqrt2_lb]
  nlinarith [h1]

lemma baseline_crater_base_ub : Real.pi * Real.sqrt 2 * (1300000000000000000 / 81) <
    (16800:ℝ) ^ (4:ℕ) := by
  have h2 : Real.pi * Real.sqrt 2 < 4.44289 := by
    nlinarith [pi_lb, pi_ub, sqrt2_lb, sqrt2_ub, Real.pi_pos, Real.sqrt_nonneg 2]
  nlinarith [h2]

lemma baseline_crater_bounds : 20 < scenarioAResult.immediate.craterDiameter.value ∧
    scenarioAResult.immediate.craterDiameter.value < 21 := by
  rw [baseline_crater_expr, baseline_crater_base]
  have hx : (0:ℝ) ≤ Real.pi * Real.sqrt 2 * (1300000000000000000 / 81) := by positivity
  have hlb := lt_rpow_quarter hx baseline_crater_base_lb
  have hub := rpow_quarter_lt hx (by norm_num : (0:ℝ) ≤ 16800) baseline_crater_base_ub
  constructor <;> nlinarith [hlb, hub]

lemma baseline_crater_severity : scenarioAResult.immediate.craterDiameter.severity =
    Severity.catastrophic := by
  have h : scenarioAResult.immediate.craterDiameter.severity =
      get_crater_severity scenarioAResult.immediate.craterDiameter.value := rfl
  rw [h]
  unfold get_crater_severity stepSeverity
  rw [if_pos baseline_crater_bounds.1]

lemma baseline_energy_severity : scenarioAResult.immediate.energy.severity =
    Severity.severe := by
  have h : scenarioAResult.immediate.energy.severity =
      get_energy_severity scenarioAResult.immediate.energy.value := rfl
  rw [h]
  unfold get_energy_severity stepSeverity
  rw [if_neg (by push_neg; nlinarith [baseline_energy_bounds.2]),
    if_pos (by nlinarith [baseline_energy_bounds.1])]

lemma baseline_temperature_value : scenarioAResult.immediate.temperature.value = 50000 := by
  have h : scenarioAResult.immediate.temperature.value =
      min 100000 (20.0 * 2000 + 10000) := rfl
  rw [h]
  norm_num

lemma baseline_temperature_severity : scenarioAResult.immediate.temperature.severity =
    Severity.severe := by
  have h : scenarioAResult.immediate.temperature.severity =
      get_temperature_severity scenarioAResult.immediate.temperature.value := rfl
  rw [h, baseline_temperature_value]
  unfold get_temperature_severity stepSeverity
  norm_num

lemma baseline_fireball_expr : scenarioAResult.immediate.fireballRadius.value =
    0.5 * scenarioAResult.immediate.energy.value ^ (0.4:ℝ) := rfl

lemma baseline_fireball_bounds : 10 < scenarioAResult.immediate.fireballRadius.value ∧
    scenarioAResult.immediate.fireballRadius.value < 50 := by
  rw [baseline_fireball_expr]
  have hE := baseline_energy_bounds
  have hx : (0:ℝ) ≤ scenarioAResult.immediate.energy.value := by nlinarith [hE.1]
  have h20 : (20:ℝ) < scenarioAResult.immediate.energy.value ^ (0.4:ℝ) :=
    lt_rpow_04 hx
      (by nlinarith [hE.1, sq_nonneg (scenarioAResult.immediate.energy.value - 65073)])
  have h100 : scenarioAResult.immediate.energy.value ^ (0.4:ℝ) < 100 :=
    rpow_04_lt hx (by norm_num) (by nlinarith [hE.1, hE.2])
  constructor <;> nlinarith [h20, h100]

lemma baseline_fireball_severity : scenarioAResult.immediate.fireballRadius.severity =
    Severity.moderate := by
  have h : scenarioAResult.immediate.fireballRadius.severity =
      get_fireball_severity scenarioAResult.immediate.fireballRadius.value := rfl
  rw [h]
  unfold get_fireball_severity stepSeverity
  rw [if_neg (by push_neg; nlinarith [baseline_fireball_bounds.2]),
    if_neg (by push_neg; nlinarith [baseline_fireball_bounds.2]),
    if_pos baseline_fireball_bounds.1]

lemma fallback_eq (asteroid : Asteroid) :
    fallbackVelocity asteroid = velocityOrbitalOrFallback asteroid := by
  unfold fallbackVelocity velocityOrbitalOrFallback calculate_orbital_velocity
  rcases hoe : asteroid.orbital_elements with _ | oe
  · rfl
  · rcases hax : oe.semi_major_axis_au with _ | ax
    · simp [hax]
    · by_cases h0 : ax = 0
      · simp [hax, h0]
      · by_cases hneg : ax < 0 <;> simp [hax, h0, hneg, GM_sun, AU, EARTH_ESCAPE_VELOCITY]

lemma fallback_pos (asteroid : Asteroid) (v : ℝ) (h : fallbackVelocity asteroid = some v) :
    0 < v := by
  unfold fallbackVelocity calculate_orbital_velocity at h
  rcases hoe : asteroid.orbital_elements with _ | oe <;> simp only [hoe] at h
  · simp only [Option.some_inj] at h
    rw [← h]; norm_num
  · rcases hax : oe.semi_major_axis_au with _ | ax <;> simp only [hax] at h
    · simp only [Option.some_inj] at h
      rw [← h]; norm_num
    · by_cases h0 : ax = 0
      · rw [if_pos h0] at h
        simp only [Option.some_inj] at h
        rw [← h]; norm_num
      · rw [if_neg h0, if_neg h0] at h
        by_cases hneg : ax < 0
        · rw [if_pos hneg] at h
          simp at h
        · rw [if_neg hneg, Option.map_some'] at h
          simp only [Option.some_inj] at h
          rw [← h]
          apply Real.sqrt_pos.mpr
          have h2 : (0:ℝ) < EARTH_ESCAPE_VELOCITY ^ 2 := by norm_num [EARTH_ESCAPE_VELOCITY]
          positivity

lemma civ_eq_fallback (asteroid : Asteroid) (parameters : ImpactParameters) :
    calculate_impact_velocity asteroid parameters =
      (match parameters.impact_velocity_kms with
        | some v => if v = 0 then fallbackVelocity asteroid else some v
        | none => fallbackVelocity asteroid) := rfl

lemma seismic_magnitude_range (energy_mt : ℝ) :
    0 ≤ calculate_seismic_magnitude energy_mt ∧ calculate_seismic_magnitude energy_mt ≤ 10 := by
  unfold calculate_seismic_magnitude
  split_ifs
  · exact ⟨le_max_left 0 _, max_le (by norm_num) (min_le_left 10 _)⟩
  · exact ⟨le_refl 0, by norm_num⟩

lemma sin15_mem : 0 < Real.sin (Real.pi / 12) ∧ Real.sin (Real.pi / 12) < 1 := by
  constructor
  · exact Real.sin_pos_of_pos_of_lt_pi (by positivity) (by nlinarith [Real.pi_pos])
  · have h := Real.strictMonoOn_sin
      (a := Real.pi / 12) (b := Real.pi / 2)
      ⟨by nlinarith [Real.pi_pos], by nlinarith [Real.pi_pos]⟩
      ⟨by nlinarith [Real.pi_pos], le_refl _⟩
      (by nlinarith [Real.pi_pos])
    rw [Real.sin_pi_div_two] at h
    exact h

lemma stepSeverity_rank_mono (t1 t2 t3 : ℝ) {x y : ℝ} (h : x ≤ y) :
    (stepSeverity t1 t2 t3 x).rank ≤ (stepSeverity t1 t2 t3 y).rank := by
  unfold stepSeverity
  split_ifs <;> simp_all [Severity.rank] <;> linarith

lemma progress_in_range {v c : ℝ} (hv : 0 ≤ v) (hc : 0 < c) :
    0 ≤ min 100 (v / c * 100) ∧ min 100 (v / c * 100) ≤ 100 :=
  ⟨le_min (by norm_num) (by positivity), min_le_left _ _⟩

lemma sin_angle_nonneg {θ : ℝ} (h1 : 15 ≤ θ) (h2 : θ ≤ 90) :
    0 ≤ Real.sin (θ * Real.pi / 180) := by
  apply Real.sin_nonneg_of_nonneg_of_le_pi
  · nlinarith [Real.pi_pos]
  · nlinarith [Real.pi_pos]

-- Claim theorems.

/-- Claim C1, counterexample. For the baseline scenario (diameter 1.0 km,
rocky, no density or velocity override, no orbital data, angle 45 deg, target
density 2700) the computed energy exceeds 1000 megatons (so it is nowhere near
0.0651 megatons, even to order of magnitude), the crater diameter exceeds
20 km (not tens to low hundreds of meters), and none of the four immediate
metrics is classified minor. -/
theorem scenario_baseline_counterexample :
    calculate_impact_scenario rockyKmAsteroid baselineParams = some scenarioAResult ∧
    1000 < scenarioAResult.immediate.energy.value ∧
    1 < scenarioAResult.immediate.craterDiameter.value ∧
    scenarioAResult.immediate.craterDiameter.severity ≠ Severity.minor ∧
    scenarioAResult.immediate.energy.severity ≠ Severity.minor ∧
    scenarioAResult.immediate.temperature.severity ≠ Severity.minor ∧
    scenarioAResult.immediate.fireballRadius.severity ≠ Severity.minor := by
  refine ⟨baseline_scenario_some, by nlinarith [baseline_energy_bounds.1],
    by nlinarith [baseline_crater_bounds.1], ?_, ?_, ?_, ?_⟩
  · rw [baseline_crater_severity]; intro hcontra; cases hcontra
  · rw [baseline_energy_severity]; intro hcontra; cases hcontra
  · rw [baseline_temperature_severity]; intro hcontra; cases hcontra
  · rw [baseline_fireball_severity]; intro hcontra; cases hcontra

/-- Claim C1, amended. For the baseline scenario the engine resolves the
velocity to exactly 20.0 km per s and the mass to about 1.361 times 10 to the
12 kg as claimed, but the energy is about 6.51 times 10 to the 4 megatons TNT
(not 0.0651), the crater diameter is between 20 and 21 km (not tens to low
hundreds of meters), and the immediate metrics classify as crater
catastrophic, energy severe, temperature severe and fireball moderate (none
of them minor). -/
theorem scenario_baseline_amended :
    calculate_impact_velocity rockyKmAsteroid baselineParams = some 20.0 ∧
    (1361000000000 < calculate_asteroid_mass rockyKmAsteroid ∧
      calculate_asteroid_mass rockyKmAsteroid < 1362000000000) ∧
    (65073 < scenarioAResult.immediate.energy.value ∧
      scenarioAResult.immediate.energy.value < 65076) ∧
    (20 < scenarioAResult.immediate.craterDiameter.value ∧
      scenarioAResult.immediate.craterDiameter.value < 21) ∧
    scenarioAResult.immediate.craterDiameter.severity = Severity.catastrophic ∧
    scenarioAResult.immediate.energy.severity = Severity.severe ∧
    scenarioAResult.immediate.temperature.severity = Severity.severe ∧
    scenarioAResult.immediate.fireballRadius.severity = Severity.moderate :=
  ⟨baseline_velocity, baseline_mass_bounds, baseline_energy_bounds, baseline_crater_bounds,
    baseline_crater_severity, baseline_energy_severity, baseline_temperature_severity,
    baseline_fireball_severity⟩

/-- Claim C2, counterexample. For an asteroid whose composition class is not
in the density table and which carries no density override, the impact
calculation fails (KeyError from the direct table indexing on line 40 of the
engine) instead of falling back to the rocky value 2600. -/
theorem effective_density_counterexample :
    calculate_impact_scenario unknownAsteroid baselineParams = none := rfl

/-- Claim C2, amended. The effective density used by the mass calculation is
the explicit override when present and nonzero (a negative override is used
as given), and otherwise the table value for the composition class with
default 2600 for an unrecognized class; however the top-level calculation
separately re-resolves the density by direct table indexing, so for an
unrecognized class with an absent or zero override the whole calculation
fails rather than defaulting. -/
theorem effective_density_amended (asteroid : Asteroid) (parameters : ImpactParameters) :
    calculate_asteroid_mass asteroid =
      (4 / 3) * Real.pi * (orDefault asteroid.estimated_diameter_km 1.0 * 1000 / 2) ^ 3 *
        effectiveDensityAmended asteroid ∧
    ((asteroid.density_kg_m3 = none ∨ asteroid.density_kg_m3 = some 0) →
      MATERIAL_DENSITIES.lookup asteroid.composition_type = none →
      calculate_impact_scenario asteroid parameters = none) := by
  constructor
  · unfold calculate_asteroid_mass effectiveDensityAmended orDefault
    rcases hd : asteroid.density_kg_m3 with _ | d
    · rfl
    · by_cases h0 : d = 0 <;> simp [h0]
  · intro hd hlook
    unfold calculate_impact_scenario calculate_impact_scenario_run topDensity materialDensityIndex
    rcases hv : calculate_impact_velocity asteroid parameters with _ | v
    · simp
    · rcases hd with hd | hd <;> simp [hd, hlook]

/-- Claim C2, witness. An asteroid with a zero (falsy) density override and
the unrecognized class comet makes the calculation fail. -/
theorem effective_density_amended_witness :
    calculate_impact_scenario zeroDensityCometAsteroid baselineParams = none :=
  (effective_density_amended zeroDensityCometAsteroid baselineParams).2 (Or.inr rfl) rfl

/-- Claim C3, counterexample. A negative explicit override velocity is
returned unchanged (truthiness test, not a greater-than-zero test), so the
resolved velocity is negative rather than the claimed 20.0 fallback, and the
claimed positivity fails. -/
theorem velocity_resolution_counterexample :
    calculate_impact_velocity rockyKmAsteroid negVelocityParams = some (-5) ∧
    (-5 : ℝ) < 0 := by
  constructor
  · norm_num [calculate_impact_velocity, negVelocityParams, baselineParams]
  · norm_num

/-- Claim C3, amended. Velocity resolution follows the order: a present
nonzero override is returned unchanged (even when negative); otherwise a
present nonzero semi-major axis selects sqrt of orbital velocity squared plus
11.2 squared, with orbital velocity sqrt of GM over a in km per s, failing
for a negative axis; otherwise exactly 20.0. Every resolved velocity is
positive unless it is literally a supplied override value. -/
theorem velocity_resolution_order (asteroid : Asteroid) (parameters : ImpactParameters) :
    calculate_impact_velocity asteroid parameters =
      velocityResolutionAmended asteroid parameters ∧
    ∀ v, calculate_impact_velocity asteroid parameters = some v →
      0 < v ∨ parameters.impact_velocity_kms = some v := by
  constructor
  · rw [civ_eq_fallback]
    unfold velocityResolutionAmended
    rcases hv : parameters.impact_velocity_kms with _ | v
    · exact fallback_eq asteroid
    · by_cases h0 : v = 0 <;> simp [h0, fallback_eq asteroid]
  · intro v hv
    rw [civ_eq_fallback] at hv
    rcases hpv : parameters.impact_velocity_kms with _ | w <;> simp only [hpv] at hv
    · exact Or.inl (fallback_pos asteroid v hv)
    · by_cases h0 : w = 0
      · rw [if_pos h0] at hv
        exact Or.inl (fallback_pos asteroid v hv)
      · rw [if_neg h0] at hv
        simp only [Option.some_inj] at hv
        exact Or.inr (by rw [hv])

/-- Claim C3, witness. On the baseline scenario the resolution agrees with the
amended description and yields the positive fallback 20.0. -/
theorem velocity_resolution_order_witness :
    0 < (20.0:ℝ) ∨ baselineParams.impact_velocity_kms = some 20.0 :=
  (velocity_resolution_order rockyKmAsteroid baselineParams).2 20.0 rfl

/-- Claim C4. For every energy the seismic magnitude lies between 0 and 10,
at energy exactly 0 it is exactly 0 (the log10 guard), and for every velocity
the peak temperature never exceeds 100000. -/
theorem seismic_temperature_clamped (energy_mt velocity_kms : ℝ) :
    (0 ≤ calculate_seismic_magnitude energy_mt ∧ calculate_seismic_magnitude energy_mt ≤ 10) ∧
    calculate_seismic_magnitude 0 = 0 ∧
    (calculate_thermal_effects energy_mt velocity_kms).2 ≤ 100000 := by
  refine ⟨seismic_magnitude_range energy_mt, ?_, ?_⟩
  · unfold calculate_seismic_magnitude
    rw [if_neg (by norm_num)]
  · exact min_le_left _ _

/-- Claim C5. For fixed positive energy and fixed other inputs, the crater
diameter, shockwave radius and debris field radius at an impact angle of 15
degrees are each strictly smaller than at 90 degrees. -/
theorem angle_sensitivity (energy_mt diameter_m velocity_kms density target_density : ℝ)
    (hE : 0 < energy_mt) (ht : 0 < target_density) :
    calculate_crater_diameter energy_mt diameter_m velocity_kms density target_density 15 <
      calculate_crater_diameter energy_mt diameter_m velocity_kms density target_density 90 ∧
    calculate_shockwave_radius energy_mt 15 < calculate_shockwave_radius energy_mt 90 ∧
    calculate_debris_field energy_mt 15 < calculate_debris_field energy_mt 90 := by
  have h15 : (15:ℝ) * Real.pi / 180 = Real.pi / 12 := by ring
  have h90 : (90:ℝ) * Real.pi / 180 = Real.pi / 2 := by ring
  have hs90 : Real.sin ((90:ℝ) * Real.pi / 180) = 1 := by rw [h90, Real.sin_pi_div_two]
  have hs15 := sin15_mem
  refine ⟨?_, ?_, ?_⟩
  · unfold calculate_crater_diameter
    rw [h15, hs90]
    have hnum : energy_mt * 4.184e15 * Real.sin (Real.pi / 12) < energy_mt * 4.184e15 * 1 := by
      nlinarith [hs15.1, hs15.2, hE]
    have hbase : energy_mt * 4.184e15 * Real.sin (Real.pi / 12) / target_density <
        energy_mt * 4.184e15 * 1 / target_density :=
      (div_lt_div_iff_of_pos_right ht).mpr hnum
    have hb15 : 0 ≤ energy_mt * 4.184e15 * Real.sin (Real.pi / 12) / target_density :=
      div_nonneg (mul_nonneg (by positivity) hs15.1.le) ht.le
    exact mul_lt_mul_of_pos_left (Real.rpow_lt_rpow hb15 hbase (by norm_num)) (by norm_num)
  · unfold calculate_shockwave_radius
    rw [h15, hs90]
    nlinarith [Real.rpow_pos_of_pos hE (0.33:ℝ), hs15.1, hs15.2]
  · unfold calculate_debris_field
    rw [h15, hs90]
    nlinarith [Real.rpow_pos_of_pos hE (0.3:ℝ), hs15.1, hs15.2]

/-- Claim C5, witness at energy 1 and target density 1. -/
theorem angle_sensitivity_witness :
    calculate_crater_diameter 1 0 0 0 1 15 < calculate_crater_diameter 1 0 0 0 1 90 ∧
    calculate_shockwave_radius 1 15 < calculate_shockwave_radius 1 90 ∧
    calculate_debris_field 1 15 < calculate_debris_field 1 90 :=
  angle_sensitivity 1 0 0 0 1 zero_lt_one zero_lt_one

/-- Claim C6. Each of the twelve severity classifiers is monotone: a larger
underlying value never receives a strictly lower severity band, with the
bands ordered minor, moderate, severe, catastrophic. -/
theorem severity_monotone (x y : ℝ) (h : x ≤ y) :
    (get_crater_severity x).rank ≤ (get_crater_severity y).rank ∧
    (get_energy_severity x).rank ≤ (get_energy_severity y).rank ∧
    (get_temperature_severity x).rank ≤ (get_temperature_severity y).rank ∧
    (get_fireball_severity x).rank ≤ (get_fireball_severity y).rank ∧
    (get_shockwave_severity x).rank ≤ (get_shockwave_severity y).rank ∧
    (get_debris_severity x).rank ≤ (get_debris_severity y).rank ∧
    (get_seismic_severity x).rank ≤ (get_seismic_severity y).rank ∧
    (get_dust_severity x).rank ≤ (get_dust_severity y).rank ∧
    (get_casualty_severity x).rank ≤ (get_casualty_severity y).rank ∧
    (get_infrastructure_severity x).rank ≤ (get_infrastructure_severity y).rank ∧
    (get_economic_severity x).rank ≤ (get_economic_severity y).rank ∧
    (get_refugee_severity x).rank ≤ (get_refugee_severity y).rank :=
  ⟨stepSeverity_rank_mono 20 10 2 h, stepSeverity_rank_mono 100000 10000 1000 h,
   stepSeverity_rank_mono 50000 20000 5000 h, stepSeverity_rank_mono 100 50 10 h,
   stepSeverity_rank_mono 2000 1000 200 h, stepSeverity_rank_mono 5000 2500 1000 h,
   stepSeverity_rank_mono 8 7 5 h, stepSeverity_rank_mono 50 10 1 h,
   stepSeverity_rank_mono 5000000 1000000 100000 h, stepSeverity_rank_mono 1000 500 100 h,
   stepSeverity_rank_mono 5000 1000 100 h, stepSeverity_rank_mono 20000000 5000000 1000000 h⟩

/-- Claim C6, witness at the pair 1, 2. -/
theorem severity_monotone_witness :
    (get_crater_severity (1:ℝ)).rank ≤ (get_crater_severity 2).rank ∧
    (get_energy_severity (1:ℝ)).rank ≤ (get_energy_severity 2).rank ∧
    (get_temperature_severity (1:ℝ)).rank ≤ (get_temperature_severity 2).rank ∧
    (get_fireball_severity (1:ℝ)).rank ≤ (get_fireball_severity 2).rank ∧
    (get_shockwave_severity (1:ℝ)).rank ≤ (get_shockwave_severity 2).rank ∧
    (get_debris_severity (1:ℝ)).rank ≤ (get_debris_severity 2).rank ∧
    (get_seismic_severity (1:ℝ)).rank ≤ (get_seismic_severity 2).rank ∧
    (get_dust_severity (1:ℝ)).rank ≤ (get_dust_severity 2).rank ∧
    (get_casualty_severity (1:ℝ)).rank ≤ (get_casualty_severity 2).rank ∧
    (get_infrastructure_severity (1:ℝ)).rank ≤ (get_infrastructure_severity 2).rank ∧
    (get_economic_severity (1:ℝ)).rank ≤ (get_economic_severity 2).rank ∧
    (get_refugee_severity (1:ℝ)).rank ≤ (get_refugee_severity 2).rank :=
  severity_monotone 1 2 one_le_two

/-- Claim C7. For every metric of the comprehensive effects, the progress
field equals min 100 of value over its fixed ceiling times 100 (ceilings:
crater 50 km, energy 1000000 MT, temperature 100000, fireball 200 km,
shockwave 3000 km, debris 8000 km, seismic 10, dust 100 billion tons,
casualties 10000000, infrastructure 2000 km, economic loss 10000 billion,
refugees 50000000), and for every valid input the progress lies in the band
0 to 100. -/
theorem progress_contract
    (energy_mt mass_kg velocity_kms diameter_m density impact_angle target_density : ℝ)
    (hE : 0 ≤ energy_mt) (hv : 0 ≤ velocity_kms) (hd : 0 ≤ diameter_m)
    (ha1 : 15 ≤ impact_angle) (ha2 : impact_angle ≤ 90) (ht : 0 < target_density) :
    ProgressWithin (calculate_comprehensive_effects energy_mt mass_kg velocity_kms diameter_m
      density impact_angle target_density).immediate.craterDiameter 50 ∧
    ProgressWithin (calculate_comprehensive_effects energy_mt mass_kg velocity_kms diameter_m
      density impact_angle target_density).immediate.energy 1000000 ∧
    ProgressWithin (calculate_comprehensive_effects energy_mt mass_kg velocity_kms diameter_m
      density impact_angle target_density).immediate.temperature 100000 ∧
    ProgressWithin (calculate_comprehensive_effects energy_mt mass_kg velocity_kms diameter_m
      density impact_angle target_density).immediate.fireballRadius 200 ∧
    ProgressWithin (calculate_comprehensive_effects energy_mt mass_kg velocity_kms diameter_m
      density impact_angle target_density).environmental.shockwaveRadius 3000 ∧
    ProgressWithin (calculate_comprehensive_effects energy_mt mass_kg velocity_kms diameter_m
      density impact_angle target_density).environmental.debrisFieldRadius 8000 ∧
    ProgressWithin (calculate_comprehensive_effects energy_mt mass_kg velocity_kms diameter_m
      density impact_angle target_density).environmental.seismicMagnitude 10 ∧
    ProgressWithin (calculate_comprehensive_effects energy_mt mass_kg velocity_kms diameter_m
      density impact_angle target_density).environmental.atmosphericDust 100 ∧
    ProgressWithin (calculate_comprehensive_effects energy_mt mass_kg velocity_kms diameter_m
      density impact_angle target_density).human_impact.casualtiesImmediate 10000000 ∧
    ProgressWithin (calculate_comprehensive_effects energy_mt mass_kg velocity_kms diameter_m
      density impact_angle target_density).human_impact.infrastructureDamage 2000 ∧
    ProgressWithin (calculate_comprehensive_effects energy_mt mass_kg velocity_kms diameter_m
      density impact_angle target_density).human_impact.economicLoss 10000 ∧
    ProgressWithin (calculate_comprehensive_effects energy_mt mass_kg velocity_kms diameter_m
      density impact_angle target_density).human_impact.refugeePopulation 50000000 := by
  have hsin : 0 ≤ Real.sin (impact_angle * Real.pi / 180) := sin_angle_nonneg ha1 ha2
  have hcrater : 0 ≤ calculate_crater_diameter energy_mt diameter_m velocity_kms density
      target_density impact_angle / 1000 := by
    apply div_nonneg _ (by norm_num)
    unfold calculate_crater_diameter
    have hbase : 0 ≤ energy_mt * 4.184e15 * Real.sin (impact_angle * Real.pi / 180) /
        target_density := div_nonneg (mul_nonneg (by positivity) hsin) ht.le
    exact mul_nonneg (by norm_num) (Real.rpow_nonneg hbase _)
  have htemp : 0 ≤ (calculate_thermal_effects energy_mt velocity_kms).2 :=
    le_min (by norm_num) (by nlinarith [hv])
  have hfb : 0 ≤ (calculate_thermal_effects energy_mt velocity_kms).1 :=
    mul_nonneg (by norm_num) (Real.rpow_nonneg hE _)
  have hsw : 0 ≤ calculate_shockwave_radius energy_mt impact_angle := by
    unfold calculate_shockwave_radius
    exact mul_nonneg (mul_nonneg (by norm_num) (Real.rpow_nonneg hE _)) hsin
  have hdeb : 0 ≤ calculate_debris_field energy_mt impact_angle := by
    unfold calculate_debris_field
    exact mul_nonneg (mul_nonneg (by norm_num) (Real.rpow_nonneg hE _)) hsin
  have hseis := (seismic_magnitude_range energy_mt).1
  have hdust : 0 ≤ calculate_atmospheric_dust energy_mt diameter_m / 1e9 := by
    apply div_nonneg _ (by norm_num)
    unfold calculate_atmospheric_dust
    have h3 : 0 ≤ diameter_m ^ 3 := pow_nonneg hd 3
    positivity
  have hcas : 0 ≤ estimate_casualties (calculate_shockwave_radius energy_mt impact_angle)
      (calculate_thermal_effects energy_mt velocity_kms).1 := by
    unfold estimate_casualties
    positivity
  have hinfra : 0 ≤ calculate_shockwave_radius energy_mt impact_angle * 1.5 :=
    mul_nonneg hsw (by norm_num)
  have hecon : 0 ≤ energy_mt * 0.1 := mul_nonneg hE (by norm_num)
  have href : 0 ≤ estimate_refugees (calculate_debris_field energy_mt impact_angle) := by
    unfold estimate_refugees
    positivity
  exact ⟨⟨rfl, (progress_in_range hcrater (by norm_num)).1,
      (progress_in_range hcrater (by norm_num)).2⟩,
    ⟨rfl, (progress_in_range hE (by norm_num)).1, (progress_in_range hE (by norm_num)).2⟩,
    ⟨rfl, (progress_in_range htemp (by norm_num)).1, (progress_in_range htemp (by norm_num)).2⟩,
    ⟨rfl, (progress_in_range hfb (by norm_num)).1, (progress_in_range hfb (by norm_num)).2⟩,
    ⟨rfl, (progress_in_range hsw (by norm_num)).1, (progress_in_range hsw (by norm_num)).2⟩,
    ⟨rfl, (progress_in_range hdeb (by norm_num)).1, (progress_in_range hdeb (by norm_num)).2⟩,
    ⟨rfl, (progress_in_range hseis (by norm_num)).1, (progress_in_range hseis (by norm_num)).2⟩,
    ⟨rfl, (progress_in_range hdust (by norm_num)).1, (progress_in_range hdust (by norm_num)).2⟩,
    ⟨rfl, (progress_in_range hcas (by norm_num)).1, (progress_in_range hcas (by norm_num)).2⟩,
    ⟨rfl, (progress_in_range hinfra (by norm_num)).1,
      (progress_in_range hinfra (by norm_num)).2⟩,
    ⟨rfl, (progress_in_range hecon (by norm_num)).1, (progress_in_range hecon (by norm_num)).2⟩,
    ⟨rfl, (progress_in_range href (by norm_num)).1, (progress_in_range href (by norm_num)).2⟩⟩

/-- Claim C7, witness at energy 1, mass 1, velocity 1, diameter 1, density 1,
angle 45, target density 2700. -/
theorem progress_contract_witness :
    ProgressWithin (calculate_comprehensive_effects 1 1 1 1 1 45
      2700).immediate.craterDiameter 50 ∧
    ProgressWithin (calculate_comprehensive_effects 1 1 1 1 1 45 2700).immediate.energy 1000000 ∧
    ProgressWithin (calculate_comprehensive_effects 1 1 1 1 1 45
      2700).immediate.temperature 100000 ∧
    ProgressWithin (calculate_comprehensive_effects 1 1 1 1 1 45
      2700).immediate.fireballRadius 200 ∧
    ProgressWithin (calculate_comprehensive_effects 1 1 1 1 1 45
      2700).environmental.shockwaveRadius 3000 ∧
    ProgressWithin (calculate_comprehensive_effects 1 1 1 1 1 45
      2700).environmental.debrisFieldRadius 8000 ∧
    ProgressWithin (calculate_comprehensive_effects 1 1 1 1 1 45
      2700).environmental.seismicMagnitude 10 ∧
    ProgressWithin (calculate_comprehensive_effects 1 1 1 1 1 45
      2700).environmental.atmosphericDust 100 ∧
    ProgressWithin (calculate_comprehensive_effects 1 1 1 1 1 45
      2700).human_impact.casualtiesImmediate 10000000 ∧
    ProgressWithin (calculate_comprehensive_effects 1 1 1 1 1 45
      2700).human_impact.infrastructureDamage 2000 ∧
    ProgressWithin (calculate_comprehensive_effects 1 1 1 1 1 45
      2700).human_impact.economicLoss 10000 ∧
    ProgressWithin (calculate_comprehensive_effects 1 1 1 1 1 45
      2700).human_impact.refugeePopulation 50000000 :=
  progress_contract 1 1 1 1 1 45 2700 zero_le_one zero_le_one zero_le_one
    (by norm_num) (by norm_num) (by norm_num)

/-- Claim C8. The engine is deterministic: the result of a call does not
depend on the engine state it starts from, and repeating a call with the same
arguments right after a first call (so from the state that first call left
behind) yields the same result. In this embedding the inputs are immutable
values, so a call cannot mutate its arguments. -/
theorem engine_purity (s₁ s₂ : EngineState) (asteroid : Asteroid)
    (parameters : ImpactParameters) :
    (calculate_impact_scenario_run s₁ asteroid parameters).2 =
      (calculate_impact_scenario_run s₂ asteroid parameters).2 ∧
    (calculate_impact_scenario_run (calculate_impact_scenario_run s₁ asteroid parameters).1
        asteroid parameters).2 = (calculate_impact_scenario_run s₁ asteroid parameters).2 := by
  cases hv : calculate_impact_velocity asteroid parameters <;>
    cases hd : topDensity asteroid <;>
    simp [calculate_impact_scenario_run, hv, hd]

/-- Claim C9, counterexample. A successful call does change the engine state:
starting from the freshly initialised state (empty metadata), after the
baseline call the calculation_metadata field is populated. -/
theorem metadata_mutation_counterexample :
    (EngineState.calculation_metadata ⟨none⟩).isSome = false ∧
    ((calculate_impact_scenario_run ⟨none⟩ rockyKmAsteroid
        baselineParams).1.calculation_metadata).isSome = true :=
  ⟨rfl, rfl⟩

/-- Claim C9, amended. Every successful invocation overwrites the engine field
calculation_metadata with the metadata of that call (source tag, method tag,
velocity used, mass, energy and NASA id), regardless of the prior state; the
returned results never read this state, so outputs remain independent across
invocations. -/
theorem metadata_overwrite (s : EngineState) (asteroid : Asteroid)
    (parameters : ImpactParameters) (v density : ℝ)
    (hv : calculate_impact_velocity asteroid parameters = some v)
    (hd : topDensity asteroid = some density) :
    (calculate_impact_scenario_run s asteroid parameters).1.calculation_metadata = some
      { asteroid_source := "nasa_neo"
        calculation_method := "enhanced_physics"
        impact_velocity_used := v
        asteroid_mass_kg := calculate_asteroid_mass asteroid
        kinetic_energy_mt := 0.5 * calculate_asteroid_mass asteroid * (v * 1000) ^ 2 / 4.184e15
        nasa_asteroid_id := asteroid.nasa_id } := by
  unfold calculate_impact_scenario_run
  rw [hv, hd]

/-- Claim C9, witness: the baseline call on a fresh engine stores its
metadata. -/
theorem metadata_overwrite_witness :
    (calculate_impact_scenario_run ⟨none⟩ rockyKmAsteroid
        baselineParams).1.calculation_metadata = some
      { asteroid_source := "nasa_neo"
        calculation_method := "enhanced_physics"
        impact_velocity_used := 20.0
        asteroid_mass_kg := calculate_asteroid_mass rockyKmAsteroid
        kinetic_energy_mt := 0.5 * calculate_asteroid_mass rockyKmAsteroid *
          (20.0 * 1000) ^ 2 / 4.184e15
        nasa_asteroid_id := rockyKmAsteroid.nasa_id } :=
  metadata_overwrite ⟨none⟩ rockyKmAsteroid baselineParams 20.0 2600 rfl rfl

/-- Claim C10. Whenever the engine returns a results record, that record
carries asteroid_source nasa_neo, calculation_method enhanced_physics and
confidence_level 0.85, which differs from the ImpactResults model default
0.95 (witnessed by rebuilding the record without the confidence field). -/
theorem results_metadata_constants (asteroid : Asteroid) (parameters : ImpactParameters)
    (r : ImpactResults) (h : calculate_impact_scenario asteroid parameters = some r) :
    r.asteroid_source = "nasa_neo" ∧ r.calculation_method = "enhanced_physics" ∧
    r.confidence_level = 0.85 ∧ r.confidence_level ≠ 0.95 ∧
    ({ immediate := r.immediate, environmental := r.environmental,
       human_impact := r.human_impact, timeline := r.timeline,
       asteroid_source := "custom", calculation_method := "simplified" } :
      ImpactResults).confidence_level = 0.95 := by
  unfold calculate_impact_scenario calculate_impact_scenario_run at h
  rcases hv : calculate_impact_velocity asteroid parameters with _ | v <;> rw [hv] at h
  · simp at h
  · rcases hd : topDensity asteroid with _ | density <;> rw [hd] at h
    · simp at h
    · simp only [Option.some_inj] at h
      subst h
      exact ⟨rfl, rfl, rfl, by norm_num, rfl⟩

/-- Claim C10, witness on the baseline scenario result. -/
theorem results_metadata_constants_witness :
    scenarioAResult.asteroid_source = "nasa_neo" ∧
    scenarioAResult.calculation_method = "enhanced_physics" ∧
    scenarioAResult.confidence_level = 0.85 ∧ scenarioAResult.confidence_level ≠ 0.95 ∧
    ({ immediate := scenarioAResult.immediate, environmental := scenarioAResult.environmental,
       human_impact := scenarioAResult.human_impact, timeline := scenarioAResult.timeline,
       asteroid_source := "custom", calculation_method := "simplified" } :
      ImpactResults).confidence_level = 0.95 :=
  results_metadata_constants rockyKmAsteroid baselineParams scenarioAResult rfl
